import Mathlib

-- Verification development for the eBay sports-card deal scanner.
-- The repository holds several variants of the same pipeline:
--   app/scanner.py      auction scanner (normalize_row, estimate_market_value, db phase)
--   app/main.py         fixed profit-rule scanner (qualifies, expected_profit, roi_from_profit)
--   app/db.py           multiplier-based scanner variant (expected_profit with tax-adjusted buy-in)
--   app/ebay_auth.py    OAuth token cache (get_app_token)
--   app/ebay_browse.py  Browse API client (search_browse, item_total_cost)
-- Python floats are modelled as exact rationals, datetimes as epoch seconds (Rat),
-- epoch clock values in the auth module as Int seconds.  JSON field access with
-- missing or unparseable values is modelled with Option.  HTTP effects are modelled
-- by passing the upstream response (or its parsed payload) as an explicit argument.

-- ===== generic helpers (string handling mirrors the Python operations used) =====

-- Python lowercase of a title, as a character list (titles here are ASCII).
def lowerChars (s : String) : List Char :=
  s.toList.map Char.toLower

def listStartsWith : List Char → List Char → Bool
  | [], _ => true
  | _ :: _, [] => false
  | p :: ps, c :: cs => p == c && listStartsWith ps cs

-- Python substring test `pat in t`.
def containsSub (pat : List Char) : List Char → Bool
  | [] => listStartsWith pat []
  | c :: cs => listStartsWith pat (c :: cs) || containsSub pat cs

def hasTok (t : List Char) (pat : String) : Bool :=
  containsSub pat.toList t

def digitsToNat (ds : List Char) : Nat :=
  ds.foldl (fun acc c => acc * 10 + (c.toNat - 48)) 0

-- Python regex \w on ASCII input.
def isWordChar (c : Char) : Bool :=
  c.isAlphanum || c == '_'

-- Python regex \s on ASCII input.
def isSpaceChar (c : Char) : Bool :=
  c == ' ' || c == '\t' || c == '\n' || c == '\r' || c == '\x0b' || c == '\x0c'

-- The tail of a match of the regex piece \s*\d{1,3}\b starting right after a slash:
-- skip whitespace, take the maximal digit run; a run of length 0 or length over 3
-- cannot match (each shorter greedy retry is followed by a digit), and a run of
-- length 1..3 matches exactly when the following character is absent or a non-word
-- character (the \b boundary).
def serialAfterSlash (cs : List Char) : Option Nat :=
  let cs1 := cs.dropWhile isSpaceChar
  let ds := cs1.takeWhile Char.isDigit
  let rest := cs1.drop ds.length
  if ds.length = 0 || 3 < ds.length then none
  else
    match rest with
    | [] => some (digitsToNat ds)
    | c :: _ => if isWordChar c then none else some (digitsToNat ds)

-- re.search of the pattern /\s*(\d{1,3})\b : scan left to right for a slash whose
-- suffix matches, returning the captured digits.
def findSerial : List Char → Option Nat
  | [] => none
  | c :: cs =>
    if c == '/' then
      match serialAfterSlash cs with
      | some n => some n
      | none => findSerial cs
    else findSerial cs

-- Percent-encoding as in urllib.parse.quote / requests.utils.quote with safe="/",
-- on ASCII input.
def hexDigitChar (n : Nat) : Char :=
  if n < 10 then Char.ofNat (48 + n) else Char.ofNat (55 + n)

def urlSafeChar (c : Char) : Bool :=
  c.isAlphanum || c == '_' || c == '.' || c == '-' || c == '~' || c == '/'

def quoteChar (c : Char) : List Char :=
  if urlSafeChar c then [c] else ['%', hexDigitChar (c.toNat / 16), hexDigitChar (c.toNat % 16)]

def urlQuote (s : String) : String :=
  String.mk ((s.toList.map quoteChar).flatten)

-- Ascending stable sort, modelling Python list.sort().
def insertAsc (x : Rat) : List Rat → List Rat
  | [] => [x]
  | y :: ys => if x ≤ y then x :: y :: ys else y :: insertAsc x ys

def sortAsc (l : List Rat) : List Rat :=
  l.foldr insertAsc []

def firstSome {α : Type} : List (Option α) → Option α
  | [] => none
  | some a :: _ => some a
  | none :: t => firstSome t

-- Python float formatting f-string with .2f, modelled as exact rounding of the
-- rational to two decimals (round half up; the concrete values used below are
-- never ties, where binary-float formatting could differ).
def money_round (x : Rat) : Rat :=
  ((Int.floor (x * 100 + 1/2) : Int) : Rat) / 100

-- ===== the upstream item summary JSON, as consumed by every variant =====

-- One entry of itemSummaries.  Option models a missing or unparseable field:
--   price               price.value parsed as a number
--   shippingOptions     each entry is its shippingCost.value parsed as a number
--   shippingCost        the top-level shippingCost.value
--   itemEndDate/Time    the parsed instant, as epoch seconds
structure Item where
  itemId : Option String
  title : Option String
  itemWebUrl : Option String
  price : Option Rat
  shippingOptions : List (Option Rat)
  shippingCost : Option Rat
  buyingOptions : List String
  itemEndDate : Option Rat
  itemEndTime : Option Rat
  bidCount : Option Int
deriving DecidableEq, Repr

-- An upstream search response: HTTP status plus the parsed itemSummaries field.
structure SearchResp where
  status : Nat
  itemSummaries : Option (List Item)
deriving DecidableEq, Repr

namespace Scanner

-- Tuning knobs of app/scanner.py at their environment defaults.
def MAX_PRICE_USD : Rat := 150
def MIN_BUY_PRICE_USD : Rat := 10
def ENDING_SOON_HOURS : Rat := 48
def MIN_EST_PROFIT_USD : Rat := 10
def MIN_ROI : Rat := 0.8
def EBAY_FEE_RATE : Rat := 0.1325
def EBAY_ORDER_FIXED_FEE : Rat := 0.30
def FALLBACK_BASE_MULTIPLIER : Rat := 1.6

-- SPORTS_KEYWORDS defaults to the empty list (env unset).
def SPORTS_KEYWORDS : List String := []

def title_has_sports_focus (title : String) : Bool :=
  if SPORTS_KEYWORDS.isEmpty then true
  else SPORTS_KEYWORDS.any (fun k => containsSub k.toList (lowerChars title))

-- hours_until, with the current instant passed explicitly (epoch seconds).
def hours_until (dt now : Rat) : Rat :=
  (dt - now) / 3600

structure Signals where
  auto : Nat
  patch : Nat
  numbered : Nat
  refractor : Nat
  short_print : Nat
  color : Nat
  case_hit : Nat
  rookie : Nat
  graded : Nat
  serial : Option Nat
deriving DecidableEq, Repr

def rarity_signals (title : String) : Signals :=
  let t := lowerChars title
  { auto := if hasTok t "auto" || hasTok t "autograph" || hasTok t "on card" then 1 else 0
    patch := if hasTok t "patch" || hasTok t "jersey" || hasTok t "relic" || hasTok t "game used" then 1 else 0
    numbered := if (findSerial t).isSome || hasTok t "numbered" then 1 else 0
    refractor := if hasTok t "refractor" || hasTok t "prizm" || hasTok t "holo" then 1 else 0
    short_print := if hasTok t "ssp" || hasTok t "sp" || hasTok t "short print" then 1 else 0
    color := if hasTok t "gold" || hasTok t "orange" || hasTok t "green" || hasTok t "blue" || hasTok t "red" then 1 else 0
    case_hit := if hasTok t "case hit" || hasTok t "downtown" || hasTok t "kaboom" || hasTok t "genesis" then 1 else 0
    rookie := if hasTok t "rookie" || hasTok t "rc" then 1 else 0
    graded := if hasTok t "psa" || hasTok t "bgs" || hasTok t "sgc" then 1 else 0
    serial := findSerial t }

def compute_fallback_multiplier (s : Signals) : Rat :=
  let m := FALLBACK_BASE_MULTIPLIER
  let m := if s.case_hit ≠ 0 then m + 1.3 else m
  let m := if s.auto ≠ 0 then m + 0.6 else m
  let m := if s.patch ≠ 0 then m + 0.5 else m
  let m := if s.short_print ≠ 0 then m + 0.4 else m
  let m := if s.refractor ≠ 0 then m + 0.25 else m
  let m := if s.color ≠ 0 then m + 0.15 else m
  let m := if s.numbered ≠ 0 then m + 0.35 else m
  let m := if s.rookie ≠ 0 then m + 0.2 else m
  let m :=
    match s.serial with
    | some n =>
      if 0 < n then
        if n ≤ 10 then m + 1.0
        else if n ≤ 25 then m + 0.7
        else if n ≤ 50 then m + 0.45
        else if n ≤ 99 then m + 0.25
        else m + 0.1
      else m
    | none => m
  let m := if s.graded ≠ 0 then m - 0.15 else m
  max 1.1 m

-- The best-option loop of extract_price_and_ship: keep the smallest numeric
-- shippingCost value, scanning left to right with accumulator best.
def minFold (best : Option Rat) : List (Option Rat) → Option Rat
  | [] => best
  | o :: t =>
    minFold
      (match o with
       | none => best
       | some v =>
         match best with
         | none => some v
         | some b => if v < b then some v else some b)
      t

def minOpt (l : List (Option Rat)) : Option Rat :=
  minFold none l

def extract_price_and_ship (item : Item) : Rat × Rat :=
  let price := item.price.getD 0
  let best := minOpt item.shippingOptions
  let ship := best.getD 0
  let ship := if ship = 0 then item.shippingCost.getD 0 else ship
  (price, ship)

def extract_end_time (item : Item) : Option Rat :=
  item.itemEndDate <|> item.itemEndTime

def extract_bid_count (item : Item) : Int :=
  item.bidCount.getD 0

-- The comp-price collection loop of estimate_market_value: positive parseable
-- price values of the fetched comps, in order (none models a failed fetch).
def compPrices (comps : Option (List Item)) : List Rat :=
  match comps with
  | some items =>
    items.foldr
      (fun it acc =>
        match it.price with
        | none => acc
        | some v => if v ≤ 0 then acc else v :: acc)
      []
  | none => []

-- estimate_market_value, with the sold-comps search outcome passed explicitly:
-- none models a failed request (ebay_browse_sold_comps returned None).
def estimate_market_value (title : String) (buy ship : Rat) (comps : Option (List Item)) :
    Rat × Option Rat × String :=
  let prices := compPrices comps
  if prices.isEmpty then
    let sig := rarity_signals title
    let mult := compute_fallback_multiplier sig
    (money_round ((buy + ship) * mult), none, "fallback")
  else
    let sorted := sortAsc prices
    let mid := sorted.getD (prices.length / 2) 0
    (money_round (mid * 0.92), some (money_round mid), "sold_comps")

-- Modelled from the spec (section 4.5, for comparison with the code): sort the
-- sample, trim k entries from each tail, and take the (upper nearest-rank)
-- median of the trimmed core.
def specTrimmedMedian (k : Nat) (sample : List Rat) : Option Rat :=
  let sorted := sortAsc sample
  let core := (sorted.drop k).take (sorted.length - 2 * k)
  core[core.length / 2]?

def compute_profit_and_roi (market_value buy ship : Rat) : Rat × Rat :=
  let gross := market_value
  let fees := gross * EBAY_FEE_RATE + EBAY_ORDER_FIXED_FEE
  let net := gross - fees
  let cost := buy + ship
  let profit := net - cost
  let roi := if 0 < cost then profit / cost else 0
  (money_round profit, money_round roi)

def compute_score (profit roi hours_left : Rat) (bid_count : Int) (s : Signals) : Rat :=
  let rarity : Rat :=
    (s.case_hit : Rat) * 35 + (s.auto : Rat) * 18 + (s.patch : Rat) * 14
      + (s.numbered : Rat) * 12 + (s.short_print : Rat) * 10 + (s.refractor : Rat) * 6
      + (s.rookie : Rat) * 5 + (s.color : Rat) * 3
  let rarity :=
    match s.serial with
    | some n =>
      if 0 < n then
        if n ≤ 10 then rarity + 18
        else if n ≤ 25 then rarity + 12
        else if n ≤ 50 then rarity + 7
        else if n ≤ 99 then rarity + 4
        else rarity
      else rarity
    | none => rarity
  let competition : Rat := max 0 (18 - ((min bid_count 18 : Int) : Rat))
  let time_factor : Rat :=
    if hours_left ≤ 0 then -20
    else max 0 (22 - hours_left / (ENDING_SOON_HOURS / 22))
  let score := profit * 0.9 + roi * 60 + rarity + competition + time_factor
  money_round score

def build_links (item : Item) : String × String :=
  let url := item.itemWebUrl.getD ""
  let sold :=
    if url = "" then ""
    else "https://www.ebay.com/sch/i.html?_nkw=" ++ urlQuote (item.title.getD "")
      ++ "&LH_Sold=1&LH_Complete=1"
  (url, sold)

structure Row where
  title : String
  listing_type : String
  buy_price : Rat
  ship : Rat
  market_value : Rat
  comp_median : Option Rat
  est_profit : Rat
  roi : Rat
  score : Rat
  bid_count : Int
  end_time : Rat
  item_id : Option String
  item_url : String
  sold_comps_url : String
  est_method : String
  signals : Signals
deriving DecidableEq, Repr

-- normalize_row, with the current instant and the sold-comps outcome explicit.
-- The Python market_value is Optional but every return path of
-- estimate_market_value produces a value, so only the nonpositive check remains.
def normalize_row (item : Item) (now : Rat) (comps : Option (List Item)) : Option Row :=
  let title := item.title.getD ""
  if title = "" then none
  else if ¬ title_has_sports_focus title then none
  else
    let bs := extract_price_and_ship item
    let buy := bs.1
    let ship := bs.2
    if buy ≤ 0 then none
    else if buy < MIN_BUY_PRICE_USD ∨ MAX_PRICE_USD < buy then none
    else
      match extract_end_time item with
      | none => none
      | some end_dt =>
        let hrs := hours_until end_dt now
        if hrs ≤ 0 ∨ ENDING_SOON_HOURS < hrs then none
        else
          let bid_count := extract_bid_count item
          let sig := rarity_signals title
          let est := estimate_market_value title buy ship comps
          let market_value := est.1
          let comp_median := est.2.1
          let method := est.2.2
          if market_value ≤ 0 then none
          else
            let pr := compute_profit_and_roi market_value buy ship
            let est_profit := pr.1
            let roi := pr.2
            if est_profit < MIN_EST_PROFIT_USD then none
            else if roi < MIN_ROI then none
            else
              let score := compute_score est_profit roi hrs bid_count sig
              let links := build_links item
              some
                { title := title
                  listing_type := "auction"
                  buy_price := money_round buy
                  ship := money_round ship
                  market_value := money_round market_value
                  comp_median := comp_median.map money_round
                  est_profit := money_round est_profit
                  roi := money_round roi
                  score := score
                  bid_count := bid_count
                  end_time := end_dt
                  item_id := item.itemId
                  item_url := links.1
                  sold_comps_url := links.2
                  est_method := method
                  signals := sig }

-- ebay_browse_search: raises on any status of 400 or above, otherwise returns
-- the parsed body.
def ebay_browse_search (resp : SearchResp) : Except String (Option (List Item)) :=
  if 400 ≤ resp.status then Except.error ("browse search failed " ++ toString resp.status)
  else Except.ok resp.itemSummaries

-- ebay_browse_sold_comps: any failure (status of 400 or above, or a raised
-- exception) yields none; otherwise the itemSummaries list (null becomes []).
def ebay_browse_sold_comps (resp : Option SearchResp) : Option (List Item) :=
  match resp with
  | none => none
  | some r => if 400 ≤ r.status then none else some (r.itemSummaries.getD [])

-- ===== the deals table of scanner.py and its run-end database phase =====

structure DealRec where
  item_id : Option String
  title : String
  listing_type : String
  buy_price : Rat
  ship : Rat
  market_value : Rat
  comp_median : Option Rat
  est_profit : Rat
  roi : Rat
  score : Rat
  bid_count : Int
  end_time : Option Rat
  item_url : String
  sold_comps_url : String
  est_method : String
  signals : Signals
  created_at : Rat
  updated_at : Rat
deriving DecidableEq, Repr

-- The VALUES tuple of db_upsert_rows for a fresh insert (created_at defaults to
-- now() in the DDL, updated_at is set to now by the insert).
def rowInsert (now : Rat) (r : Row) : DealRec :=
  { item_id := r.item_id
    title := r.title
    listing_type := r.listing_type
    buy_price := r.buy_price
    ship := r.ship
    market_value := r.market_value
    comp_median := r.comp_median
    est_profit := r.est_profit
    roi := r.roi
    score := r.score
    bid_count := r.bid_count
    end_time := some r.end_time
    item_url := r.item_url
    sold_comps_url := r.sold_comps_url
    est_method := r.est_method
    signals := r.signals
    created_at := now
    updated_at := now }

-- ON CONFLICT (item_id) DO UPDATE: every column is overwritten from EXCLUDED
-- except the key and created_at.
def overwriteDeal (d : DealRec) (now : Rat) (r : Row) : DealRec :=
  { rowInsert now r with item_id := d.item_id, created_at := d.created_at }

def upsert1 (now : Rat) (store : List DealRec) (r : Row) : List DealRec :=
  if store.any (fun d => d.item_id == r.item_id) then
    store.map (fun d => if d.item_id == r.item_id then overwriteDeal d now r else d)
  else store ++ [rowInsert now r]

def db_upsert_rows (now : Rat) (store : List DealRec) (rows : List Row) : List DealRec :=
  rows.foldl (upsert1 now) store

-- DELETE FROM deals WHERE end_time IS NOT NULL AND end_time < now()
def db_prune_old (now : Rat) (store : List DealRec) : List DealRec × Nat :=
  let remaining := store.filter
    (fun d =>
      match d.end_time with
      | none => true
      | some t => !(decide (t < now)))
  (remaining, store.length - remaining.length)

-- The database phase at the end of run(): prune first, then upsert the kept rows.
def runDbPhase (now : Rat) (store : List DealRec) (kept : List Row) : List DealRec :=
  db_upsert_rows now (db_prune_old now store).1 kept

end Scanner

namespace MainApp

-- app/main.py constants.
def MIN_PROFIT_MAIN : Rat := 25
def MIN_PROFIT_CHEAP : Rat := 10
def CHEAP_MAX_BUY_PRICE : Rat := 60
def CHEAP_MAX_BUY_IN : Rat := 75
def SELL_FEE_RATE : Rat := 0.15
def OUTBOUND_SHIP_SUPPLIES : Rat := 6.50
def BUY_TAX_RATE : Rat := 0.06

def sold_url (title : String) : String :=
  "https://www.ebay.com/sch/i.html?_nkw=" ++ urlQuote title ++ "&LH_Sold=1&LH_Complete=1"

-- _extract_shipping: takes the FIRST shipping option when the list is nonempty,
-- then falls back to the top-level shippingCost when that gave 0.
def extract_shipping (item : Item) : Rat :=
  let ship :=
    match item.shippingOptions with
    | [] => 0
    | o :: _ => o.getD 0
  if ship = 0 then item.shippingCost.getD 0 else ship

def extract_price (item : Item) : Rat :=
  item.price.getD 0

def listing_type (item : Item) : String :=
  match item.buyingOptions with
  | [] => "unknown"
  | opts =>
    if opts.contains "AUCTION" then "auction"
    else if opts.contains "FIXED_PRICE" then "fixed"
    else "unknown"

def buy_in (buy_price buy_shipping : Rat) : Rat :=
  buy_price * (1 + BUY_TAX_RATE) + buy_shipping

def expected_profit (buy_price buy_shipping : Rat) : Rat :=
  let resale_estimate := buy_price * 1.45
  let resale_net := resale_estimate * (1 - SELL_FEE_RATE) - OUTBOUND_SHIP_SUPPLIES
  resale_net - buy_in buy_price buy_shipping

def roi_from_profit (est_profit buy_price buy_shipping : Rat) : Option Rat :=
  let bi := buy_in buy_price buy_shipping
  if bi ≤ 0 then none else some (est_profit / bi)

def is_cheap_candidate (buy_price buy_shipping : Rat) : Bool :=
  let bi := buy_in buy_price buy_shipping
  if buy_price ≤ 0 then false
  else if CHEAP_MAX_BUY_PRICE < buy_price then false
  else if CHEAP_MAX_BUY_IN < bi then false
  else true

-- Returns (keep, cheap_flag).
def qualifies (est_profit buy_price buy_shipping : Rat) : Bool × Bool :=
  if MIN_PROFIT_MAIN ≤ est_profit then (true, false)
  else
    let cheap := is_cheap_candidate buy_price buy_shipping
    if cheap ∧ MIN_PROFIT_CHEAP ≤ est_profit then (true, true)
    else (false, false)

-- The profit floor that qualifies actually compares against, as a function of
-- the candidate (derived from MIN_PROFIT_MAIN / MIN_PROFIT_CHEAP and the cheap
-- sub-policy; used to state the gate as one threshold comparison).
def profit_threshold (buy_price buy_shipping : Rat) : Rat :=
  if is_cheap_candidate buy_price buy_shipping then MIN_PROFIT_CHEAP else MIN_PROFIT_MAIN

def score_from (est_profit : Rat) (roi : Option Rat) (cheap : Bool) : Rat :=
  let r := roi.getD 0
  let base := est_profit + r * 10
  if cheap then base + 5 else base

-- The cheap-first query list built inside run().
def cheap_queries : List String :=
  ["sports card lot", "rookie card lot", "mixed sports card lot", "raw rookie card",
   "ungraded rookie card", "refractor rookie card", "prizm rookie card", "optic holo rookie",
   "mosaic silver rookie", "select silver rookie", "topps chrome refractor rookie",
   "bowman chrome refractor", "autograph card", "patch card", "numbered card /99",
   "numbered card /50", "short print SSP", "case hit card", "downtown card",
   "kaboom card", "genesis card"]

-- The row inserted into the deals table by the loop body of run().
structure MainDeal where
  item_id : String
  title : String
  item_url : String
  sold_url : String
  buy_price : Rat
  buy_shipping : Rat
  est_profit : Rat
  roi : Option Rat
  score : Rat
  listing_type : String
deriving DecidableEq, Repr

-- The per-item body of the loop in run(): presence checks, the cheap-query price
-- filter, valuation, the qualification gate, and the insert payload.
def process_item (isCheapQuery : Bool) (item : Item) : Option MainDeal :=
  match item.itemId, item.title, item.itemWebUrl with
  | some iid, some title, some url =>
    if iid = "" ∨ title = "" ∨ url = "" then none
    else
      let bp := extract_price item
      let bs := extract_shipping item
      if isCheapQuery ∧ (CHEAP_MAX_BUY_PRICE < bp ∨ CHEAP_MAX_BUY_IN < buy_in bp bs) then none
      else
        let p := expected_profit bp bs
        let roi := roi_from_profit p bp bs
        let lt := listing_type item
        let kc := qualifies p bp bs
        if ¬ kc.1 then none
        else
          some
            { item_id := iid
              title := title
              item_url := url
              sold_url := sold_url title
              buy_price := bp
              buy_shipping := bs
              est_profit := p
              roi := roi
              score := score_from p roi kc.2
              listing_type := lt }
  | _, _, _ => none

end MainApp

namespace DbApp

-- app/db.py is a further scanner variant with a price-dependent resale multiplier.
def MIN_PROFIT : Rat := 20
def SELL_FEE_RATE : Rat := 0.15
def OUTBOUND_SHIP_SUPPLIES : Rat := 6.50
def BUY_TAX_RATE : Rat := 0.06

def resale_multiplier (buy_price : Rat) : Rat :=
  if buy_price < 15 then 3.5
  else if buy_price < 25 then 3
  else if buy_price < 50 then 2.5
  else if buy_price < 100 then 2
  else 1.45

-- Returns (profit, roi); the roi divisor is the tax-adjusted buy-in.
def expected_profit (buy_price buy_shipping : Rat) : Rat × Rat :=
  let mult := resale_multiplier buy_price
  let resale_estimate := buy_price * mult
  let resale_net := resale_estimate * (1 - SELL_FEE_RATE) - OUTBOUND_SHIP_SUPPLIES
  let bi := buy_price * (1 + BUY_TAX_RATE) + buy_shipping
  let profit := resale_net - bi
  let roi := if 0 < bi then profit / bi else 0
  (profit, roi)

end DbApp

namespace EbayAuth

structure Token where
  access_token : String
  expires_at_epoch : Int
deriving DecidableEq, Repr

-- One fetch attempt against the OAuth endpoint, as seen by the caller:
-- none is a failed attempt (non-success status or raised exception), some
-- carries the parsed access_token and expires_in (defaulted to 7200 upstream).
abbrev FetchAttempt := Option (String × Int)

-- get_app_token as a pure state transition.  Inputs: the module-level cache,
-- the current epoch second, and the outcomes of the (up to three) fetch
-- attempts of the retry loop.  Output: the returned token string together with
-- the cache contents after the call, or the raised failure.
def get_app_token (cached : Option Token) (now : Int) (attempts : List FetchAttempt) :
    Except String (String × Token) :=
  match cached with
  | some tk =>
    if 60 < tk.expires_at_epoch - now then Except.ok (tk.access_token, tk)
    else
      match firstSome (attempts.take 3) with
      | some te => Except.ok (te.1, ⟨te.1, now + te.2⟩)
      | none => Except.error "Failed to get eBay OAuth token"
  | none =>
    match firstSome (attempts.take 3) with
    | some te => Except.ok (te.1, ⟨te.1, now + te.2⟩)
    | none => Except.error "Failed to get eBay OAuth token"

end EbayAuth

namespace EbayBrowse

inductive BrowseErr where
  | unauthorized : BrowseErr
  | httpError : Nat → BrowseErr
deriving DecidableEq, Repr

-- search_browse: a 401 raises a RuntimeError, any other 4xx or 5xx raises via
-- raise_for_status, otherwise the itemSummaries list is returned (null becomes []).
def search_browse (resp : SearchResp) : Except BrowseErr (List Item) :=
  if resp.status = 401 then Except.error BrowseErr.unauthorized
  else if 400 ≤ resp.status ∧ resp.status < 600 then Except.error (BrowseErr.httpError resp.status)
  else Except.ok (resp.itemSummaries.getD [])

def usd_amount (price_obj : Option Rat) : Rat :=
  price_obj.getD 0

-- item_total_cost: price plus the cost of the FIRST shipping option when the
-- list is nonempty, else 0.
def item_total_cost (item : Item) : Rat :=
  let price := usd_amount item.price
  let shipping :=
    match item.shippingOptions with
    | [] => 0
    | o :: _ => usd_amount o
  price + shipping

end EbayBrowse

-- ===== concrete inputs used by the claim theorems below =====

-- A comp search result carrying only a price, as consumed by estimate_market_value.
def compItem (p : Rat) : Item :=
  { itemId := none, title := none, itemWebUrl := none, price := some p,
    shippingOptions := [], shippingCost := none, buyingOptions := [],
    itemEndDate := none, itemEndTime := none, bidCount := none }

def blankSignals : Scanner.Signals :=
  { auto := 0, patch := 0, numbered := 0, refractor := 0, short_print := 0,
    color := 0, case_hit := 0, rookie := 0, graded := 0, serial := none }

def c1WitItem : Item :=
  { itemId := some "1", title := some "x", itemWebUrl := some "u", price := some 200,
    shippingOptions := [], shippingCost := some 0, buyingOptions := [],
    itemEndDate := none, itemEndTime := none, bidCount := none }

def c1ScanItem : Item :=
  { itemId := some "v1|333|0", title := some "base card", itemWebUrl := some "https://e/3",
    price := some 20, shippingOptions := [], shippingCost := some 0,
    buyingOptions := ["AUCTION"], itemEndDate := some 7200, itemEndTime := none,
    bidCount := some 0 }

def c2Item : Item :=
  { itemId := some "v1|222|0", title := some "downtown auto rookie card",
    itemWebUrl := some "https://www.ebay.com/itm/222", price := some 30,
    shippingOptions := [], shippingCost := some 0, buyingOptions := ["AUCTION"],
    itemEndDate := some 7200, itemEndTime := none, bidCount := some 0 }

def c3Sample : List Rat := [10, 10, 10, 10, 10, 1000]

def c3WitSample : List Rat := [1, 2, 3, 4, 5]

def c4Item : Item :=
  { itemId := some "v1|111|0", title := some "Huge lot of 50 rookie cards",
    itemWebUrl := some "https://www.ebay.com/itm/111", price := some 20,
    shippingOptions := [], shippingCost := some 0, buyingOptions := ["AUCTION"],
    itemEndDate := some 7200, itemEndTime := none, bidCount := some 0 }

def c4BlankItem : Item :=
  { itemId := none, title := none, itemWebUrl := none, price := none,
    shippingOptions := [], shippingCost := none, buyingOptions := [],
    itemEndDate := none, itemEndTime := none, bidCount := none }

def c5Deal : Scanner.DealRec :=
  { item_id := some "keep|1", title := "t", listing_type := "auction", buy_price := 10,
    ship := 0, market_value := 20, comp_median := none, est_profit := 5, roi := 1,
    score := 10, bid_count := 0, end_time := some 100, item_url := "u",
    sold_comps_url := "", est_method := "fallback", signals := blankSignals,
    created_at := 0, updated_at := 0 }

def c5Ended : Scanner.DealRec :=
  { item_id := some "gone|1", title := "g", listing_type := "auction", buy_price := 10,
    ship := 0, market_value := 20, comp_median := none, est_profit := 5, roi := 1,
    score := 10, bid_count := 0, end_time := some 10, item_url := "u",
    sold_comps_url := "", est_method := "fallback", signals := blankSignals,
    created_at := 0, updated_at := 0 }

def c6FailResp : SearchResp := { status := 500, itemSummaries := none }

def c8Item : Item :=
  { itemId := none, title := none, itemWebUrl := none, price := some 100,
    shippingOptions := [some 5, some 2], shippingCost := none, buyingOptions := [],
    itemEndDate := none, itemEndTime := none, bidCount := none }

def c8WitItem : Item :=
  { itemId := none, title := none, itemWebUrl := none, price := some 50,
    shippingOptions := [some 7, some 3], shippingCost := none, buyingOptions := [],
    itemEndDate := none, itemEndTime := none, bidCount := none }

def c9CachedTok : EbayAuth.Token := { access_token := "c", expires_at_epoch := 1000 }

def c10Item : Item :=
  { itemId := some "v1|444|0", title := some "test card", itemWebUrl := some "https://e/4",
    price := some 25, shippingOptions := [some 3], shippingCost := none,
    buyingOptions := ["AUCTION"], itemEndDate := some 3600, itemEndTime := none,
    bidCount := some 2 }

-- ===== helper lemmas =====

theorem money_round_mono {x y : Rat} (h : x ≤ y) : money_round x ≤ money_round y := by
  unfold money_round
  have hf : Int.floor (x * 100 + 1/2) ≤ Int.floor (y * 100 + 1/2) := by
    apply Int.floor_le_floor
    nlinarith
  have : ((Int.floor (x * 100 + 1/2) : Int) : Rat) ≤ ((Int.floor (y * 100 + 1/2) : Int) : Rat) := by
    exact_mod_cast hf
  linarith

theorem estimate_none_eq (t : String) (b s : Rat) :
    Scanner.estimate_market_value t b s none
      = (money_round ((b + s) * Scanner.compute_fallback_multiplier (Scanner.rarity_signals t)),
         none, "fallback") := by
  simp [Scanner.estimate_market_value, Scanner.compPrices]

-- ===== C6: error handling of the search clients =====

/-- C6 (amended): an upstream failure status in the main search clients raises an
exception that propagates to the caller, rather than yielding an empty result;
only the sold-comps helper absorbs failures into a none result. -/
theorem c6_search_failure_raises :
    (∀ resp : SearchResp, 400 ≤ resp.status → resp.status < 600 →
       ∃ e, EbayBrowse.search_browse resp = Except.error e)
  ∧ (∀ resp : SearchResp, 400 ≤ resp.status →
       Scanner.ebay_browse_search resp
         = Except.error ("browse search failed " ++ toString resp.status))
  ∧ (∀ resp : SearchResp, 400 ≤ resp.status →
       Scanner.ebay_browse_sold_comps (some resp) = none) := by
  refine ⟨?_, ?_, ?_⟩
  · intro resp h4 h6
    by_cases h401 : resp.status = 401
    · exact ⟨EbayBrowse.BrowseErr.unauthorized, by simp [EbayBrowse.search_browse, h401]⟩
    · exact ⟨EbayBrowse.BrowseErr.httpError resp.status,
        by simp [EbayBrowse.search_browse, h401, h4, h6]⟩
  · intro resp h4
    rw [Scanner.ebay_browse_search, if_pos h4]
  · intro resp h4
    rw [Scanner.ebay_browse_sold_comps, if_pos h4]

/-- C6 witness: the propagating and absorbing behaviors at concrete failing
responses, via c6_search_failure_raises. -/
theorem c6_search_failure_raises_witness :
    (∃ e, EbayBrowse.search_browse { status := 404, itemSummaries := none } = Except.error e)
  ∧ Scanner.ebay_browse_search { status := 429, itemSummaries := some [] }
      = Except.error ("browse search failed " ++ toString (429 : Nat))
  ∧ Scanner.ebay_browse_sold_comps (some { status := 503, itemSummaries := none }) = none :=
  ⟨c6_search_failure_raises.1 { status := 404, itemSummaries := none } (by decide) (by decide),
   c6_search_failure_raises.2.1 { status := 429, itemSummaries := some [] } (by decide),
   c6_search_failure_raises.2.2 { status := 503, itemSummaries := none } (by decide)⟩

/-- C6 counterexample: on a 500 response the search client raises instead of
returning an empty item sequence, so the claimed absorb-into-empty contract
fails. -/
theorem c6_counterexample :
    EbayBrowse.search_browse c6FailResp = Except.error (EbayBrowse.BrowseErr.httpError 500)
  ∧ Scanner.ebay_browse_search c6FailResp = Except.error "browse search failed 500" :=
  ⟨rfl, rfl⟩

-- ===== C7: total cost and the roi divisor =====

/-- C7 (amended): the auction scanner divides profit by total cost buy plus ship
(returning 0 when that is nonpositive), while the main and db variants divide by
the tax-adjusted buy-in price times 1.06 plus shipping; the main variant returns
null when the buy-in is nonpositive. -/
theorem c7_roi_divisor :
    (∀ m b s : Rat, 0 < b + s →
       (Scanner.compute_profit_and_roi m b s).2
         = money_round ((m - (m * Scanner.EBAY_FEE_RATE + Scanner.EBAY_ORDER_FIXED_FEE) - (b + s)) / (b + s)))
  ∧ (∀ m b s : Rat, b + s ≤ 0 → (Scanner.compute_profit_and_roi m b s).2 = money_round 0)
  ∧ (∀ p bp bs : Rat, 0 < MainApp.buy_in bp bs →
       MainApp.roi_from_profit p bp bs = some (p / (bp * (1 + MainApp.BUY_TAX_RATE) + bs)))
  ∧ (∀ p bp bs : Rat, MainApp.buy_in bp bs ≤ 0 → MainApp.roi_from_profit p bp bs = none)
  ∧ (∀ bp bs : Rat, 0 < bp * (1 + DbApp.BUY_TAX_RATE) + bs →
       (DbApp.expected_profit bp bs).2
         = (DbApp.expected_profit bp bs).1 / (bp * (1 + DbApp.BUY_TAX_RATE) + bs)) := by
  refine ⟨?_, ?_, ?_, ?_, ?_⟩
  · intro m b s h
    simp only [Scanner.compute_profit_and_roi]
    rw [if_pos h]
  · intro m b s h
    simp only [Scanner.compute_profit_and_roi]
    rw [if_neg (not_lt.mpr h)]
  · intro p bp bs h
    simp only [MainApp.roi_from_profit]
    rw [if_neg (not_le.mpr h)]
    rfl
  · intro p bp bs h
    simp only [MainApp.roi_from_profit]
    rw [if_pos h]
  · intro bp bs h
    simp only [DbApp.expected_profit]
    rw [if_pos h]

/-- C7 witness: the divisor facts at concrete inputs, via c7_roi_divisor. -/
theorem c7_roi_divisor_witness :
    (Scanner.compute_profit_and_roi 100 10 0).2
      = money_round ((100 - (100 * Scanner.EBAY_FEE_RATE + Scanner.EBAY_ORDER_FIXED_FEE) - (10 + 0)) / (10 + 0))
  ∧ MainApp.roi_from_profit 10 100 0 = some (10 / (100 * (1 + MainApp.BUY_TAX_RATE) + 0))
  ∧ MainApp.roi_from_profit 10 0 (-5) = none
  ∧ (DbApp.expected_profit 10 2).2
      = (DbApp.expected_profit 10 2).1 / (10 * (1 + DbApp.BUY_TAX_RATE) + 2) :=
  ⟨c7_roi_divisor.1 100 10 0 (by norm_num),
   c7_roi_divisor.2.2.1 10 100 0 (by norm_num [MainApp.buy_in, MainApp.BUY_TAX_RATE]),
   c7_roi_divisor.2.2.2.1 10 0 (-5) (by norm_num [MainApp.buy_in, MainApp.BUY_TAX_RATE]),
   c7_roi_divisor.2.2.2.2 10 2 (by norm_num [DbApp.BUY_TAX_RATE])⟩

/-- C7 counterexample: the main variant divides the profit by the tax-adjusted
buy-in 106, not by the total cost 100, refuting the claim that nothing but
price plus shipping is used as the divisor. -/
theorem c7_counterexample :
    MainApp.roi_from_profit 10 100 0 = some (5/53) ∧ (5/53 : Rat) ≠ 10 / (100 + 0) := by
  constructor
  · norm_num [MainApp.roi_from_profit, MainApp.buy_in, MainApp.BUY_TAX_RATE]
  · norm_num

-- ===== C9: token cache margin =====

/-- C9 (amended): a successful get_app_token call either serves the unchanged
cached token, which then has strictly more than the 60 second margin left, or
wholesale-replaces the cache with a freshly fetched token whose expiry is the
fetch time plus the granted expires_in (which the code does not check against
the margin). -/
theorem c9_token_margin (cached : Option EbayAuth.Token) (now : Int)
    (attempts : List EbayAuth.FetchAttempt) (tok : String) (st : EbayAuth.Token)
    (h : EbayAuth.get_app_token cached now attempts = Except.ok (tok, st)) :
    tok = st.access_token ∧
    ((cached = some st ∧ 60 < st.expires_at_epoch - now) ∨
     (∃ e, firstSome (attempts.take 3) = some (tok, e)
        ∧ st = { access_token := tok, expires_at_epoch := now + e })) := by
  cases cached with
  | some tk =>
    simp only [EbayAuth.get_app_token] at h
    by_cases hm : 60 < tk.expires_at_epoch - now
    · rw [if_pos hm] at h
      injection h with h1
      injection h1 with ha hb
      subst ha
      subst hb
      exact ⟨rfl, Or.inl ⟨rfl, hm⟩⟩
    · rw [if_neg hm] at h
      cases hf : firstSome (attempts.take 3) with
      | none =>
        simp only [hf] at h
        exact Except.noConfusion h
      | some te =>
        simp only [hf] at h
        injection h with h1
        injection h1 with ha hb
        subst ha
        subst hb
        exact ⟨rfl, Or.inr ⟨te.2, rfl, rfl⟩⟩
  | none =>
    simp only [EbayAuth.get_app_token] at h
    cases hf : firstSome (attempts.take 3) with
    | none =>
      simp only [hf] at h
      exact Except.noConfusion h
    | some te =>
      simp only [hf] at h
      injection h with h1
      injection h1 with ha hb
      subst ha
      subst hb
      exact ⟨rfl, Or.inr ⟨te.2, rfl, rfl⟩⟩

/-- C9 witness: a cache hit at 1000 seconds to expiry, via c9_token_margin. -/
theorem c9_token_margin_witness :
    "c" = c9CachedTok.access_token ∧
    ((some c9CachedTok = some c9CachedTok ∧ 60 < c9CachedTok.expires_at_epoch - 0) ∨
     (∃ e, firstSome (([] : List EbayAuth.FetchAttempt).take 3) = some ("c", e)
        ∧ c9CachedTok = { access_token := "c", expires_at_epoch := 0 + e })) :=
  c9_token_margin (some c9CachedTok) 0 [] "c" c9CachedTok rfl

/-- C9 counterexample: a refresh that is granted expires_in of 30 seconds is
returned with only 30 seconds of life left, below the 60 second safety margin
the claim promises for every returned token. -/
theorem c9_counterexample :
    EbayAuth.get_app_token none 0 [some ("t", 30)]
      = Except.ok ("t", { access_token := "t", expires_at_epoch := 30 })
  ∧ (30 : Int) - 0 < 60 :=
  ⟨rfl, by norm_num⟩

-- ===== C5: deal lifecycle (prune and upsert) =====

theorem mem_upsert1_of_ne (now : Rat) (s : List Scanner.DealRec) (r : Scanner.Row)
    (d : Scanner.DealRec) (hd : d ∈ s) (hne : r.item_id ≠ d.item_id) :
    d ∈ Scanner.upsert1 now s r := by
  unfold Scanner.upsert1
  split
  · refine List.mem_map.mpr ⟨d, hd, ?_⟩
    have hcond : ¬ (d.item_id == r.item_id) = true := by
      simp only [beq_iff_eq]
      exact fun h => hne h.symm
    rw [if_neg hcond]
  · exact List.mem_append_left _ hd

theorem upsert1_keeps_absent (now : Rat) (s : List Scanner.DealRec) (r : Scanner.Row)
    (i : Option String) (hs : ∀ e ∈ s, e.item_id ≠ i) (hr : r.item_id ≠ i) :
    ∀ e ∈ Scanner.upsert1 now s r, e.item_id ≠ i := by
  unfold Scanner.upsert1
  split
  · intro e he
    obtain ⟨d, hd, hfd⟩ := List.mem_map.mp he
    by_cases hb : (d.item_id == r.item_id) = true
    · rw [if_pos hb] at hfd
      rw [← hfd]
      simpa [Scanner.overwriteDeal, Scanner.rowInsert] using hs d hd
    · rw [if_neg hb] at hfd
      rw [← hfd]
      exact hs d hd
  · intro e he
    rcases List.mem_append.mp he with h1 | h1
    · exact hs e h1
    · rw [List.mem_singleton] at h1
      subst h1
      simpa [Scanner.rowInsert] using hr

theorem upserts_keep_mem (now : Rat) :
    ∀ (rows : List Scanner.Row) (s : List Scanner.DealRec) (d : Scanner.DealRec),
      d ∈ s → (∀ r ∈ rows, r.item_id ≠ d.item_id) → d ∈ Scanner.db_upsert_rows now s rows := by
  intro rows
  induction rows with
  | nil =>
    intro s d hd _
    simpa [Scanner.db_upsert_rows] using hd
  | cons r rows ih =>
    intro s d hd hr
    simp only [Scanner.db_upsert_rows, List.foldl_cons] at ih ⊢
    exact ih (Scanner.upsert1 now s r) d
      (mem_upsert1_of_ne now s r d hd (hr r (List.mem_cons_self r rows)))
      (fun q hq => hr q (List.mem_cons_of_mem r hq))

theorem upserts_keep_absent (now : Rat) :
    ∀ (rows : List Scanner.Row) (s : List Scanner.DealRec) (i : Option String),
      (∀ e ∈ s, e.item_id ≠ i) → (∀ r ∈ rows, r.item_id ≠ i) →
      ∀ e ∈ Scanner.db_upsert_rows now s rows, e.item_id ≠ i := by
  intro rows
  induction rows with
  | nil =>
    intro s i hs _
    simpa [Scanner.db_upsert_rows] using hs
  | cons r rows ih =>
    intro s i hs hr
    simp only [Scanner.db_upsert_rows, List.foldl_cons] at ih ⊢
    exact ih (Scanner.upsert1 now s r) i
      (upsert1_keeps_absent now s r i hs (hr r (List.mem_cons_self r rows)))
      (fun q hq => hr q (List.mem_cons_of_mem r hq))

theorem mem_prune_of_alive (now : Rat) (store : List Scanner.DealRec) (d : Scanner.DealRec)
    (hd : d ∈ store) (h : ∀ t, d.end_time = some t → ¬ t < now) :
    d ∈ (Scanner.db_prune_old now store).1 := by
  simp only [Scanner.db_prune_old]
  refine List.mem_filter.mpr ⟨hd, ?_⟩
  cases he : d.end_time with
  | none => simp
  | some t => simp [h t he]

theorem prune_absent (now : Rat) (store : List Scanner.DealRec) (i : Option String)
    (h : ∀ d ∈ store, d.item_id = i → ∃ t, d.end_time = some t ∧ t < now) :
    ∀ e ∈ (Scanner.db_prune_old now store).1, e.item_id ≠ i := by
  simp only [Scanner.db_prune_old]
  intro e he hi
  obtain ⟨hmem, hp⟩ := List.mem_filter.mp he
  obtain ⟨t, het, hlt⟩ := h e hmem hi
  simp only [het] at hp
  simp at hp
  exact absurd hlt (not_lt.mpr hp)

/-- C5 (amended): the scanner has no active flag at all; its prune step runs at
the start of the database phase, before the upserts, and deletes exactly the
deals whose auction end_time has passed, regardless of whether they were
re-observed.  A deal that is not re-observed but whose auction has not yet ended
survives the run unchanged; a deal whose auction has ended and that is not
re-observed is gone after the run. -/
theorem c5_prune_without_inactive_flag :
    (∀ (now : Rat) (store : List Scanner.DealRec) (kept : List Scanner.Row) (d : Scanner.DealRec),
        d ∈ store →
        (∀ t, d.end_time = some t → ¬ t < now) →
        (∀ r ∈ kept, r.item_id ≠ d.item_id) →
        d ∈ Scanner.runDbPhase now store kept)
  ∧ (∀ (now : Rat) (store : List Scanner.DealRec) (kept : List Scanner.Row) (i : Option String),
        (∀ d ∈ store, d.item_id = i → ∃ t, d.end_time = some t ∧ t < now) →
        (∀ r ∈ kept, r.item_id ≠ i) →
        ∀ e ∈ Scanner.runDbPhase now store kept, e.item_id ≠ i) := by
  constructor
  · intro now store kept d hd hdt hk
    exact upserts_keep_mem now kept _ d (mem_prune_of_alive now store d hd hdt) hk
  · intro now store kept i hstore hk
    exact upserts_keep_absent now kept _ i (prune_absent now store i hstore) hk

/-- C5 witness: a live unobserved deal survives the run and an ended unobserved
deal disappears, via c5_prune_without_inactive_flag at concrete stores. -/
theorem c5_prune_witness :
    c5Deal ∈ Scanner.runDbPhase 50 [c5Deal] []
  ∧ (∀ e ∈ Scanner.runDbPhase 50 [c5Ended] [], e.item_id ≠ some "gone|1") := by
  constructor
  · refine c5_prune_without_inactive_flag.1 50 [c5Deal] [] c5Deal (List.mem_singleton_self _) ?_ ?_
    · intro t ht
      simp only [c5Deal, Option.some.injEq] at ht
      subst ht
      norm_num
    · intro r hr
      exact absurd hr (List.not_mem_nil r)
  · refine c5_prune_without_inactive_flag.2 50 [c5Ended] [] (some "gone|1") ?_ ?_
    · intro d hd hi
      rw [List.mem_singleton] at hd
      subst hd
      exact ⟨10, rfl, by norm_num⟩
    · intro r hr
      exact absurd hr (List.not_mem_nil r)

/-- C5 counterexample: a deal present after run N whose auction has not ended is
not re-observed in run N plus one, yet the run leaves it in the store untouched
(there is no inactive marking and the prune step does not remove it), refuting
the claimed mark-inactive-then-prune lifecycle. -/
theorem c5_counterexample :
    Scanner.runDbPhase 50 [c5Deal] [] = [c5Deal] ∧ c5Deal.end_time = some 100 :=
  ⟨rfl, rfl⟩

-- ===== C8: shipping option extraction =====

theorem minFold_min :
    ∀ (l : List (Option Rat)) (acc : Option Rat) (m : Rat),
      Scanner.minFold acc l = some m →
      (∀ c : Rat, some c ∈ l → m ≤ c) ∧ (∀ b : Rat, acc = some b → m ≤ b) := by
  intro l
  induction l with
  | nil =>
    intro acc m h
    simp only [Scanner.minFold] at h
    refine ⟨fun c hc => absurd hc (List.not_mem_nil _), fun b hb => ?_⟩
    rw [h] at hb
    injection hb with hh
    rw [hh]
  | cons o t ih =>
    intro acc m h
    simp only [Scanner.minFold] at h
    obtain ⟨h1, h2⟩ := ih _ m h
    constructor
    · intro c hc
      rcases List.mem_cons.mp hc with hco | hct
      · cases acc with
        | none => exact h2 c (by simp only [← hco])
        | some b =>
          by_cases hcb : c < b
          · exact h2 c (by simp only [← hco]; simp [hcb])
          · exact le_trans (h2 b (by simp only [← hco]; simp [hcb])) (not_lt.mp hcb)
      · exact h1 c hct
    · intro b hb
      cases o with
      | none => exact h2 b hb
      | some v =>
        subst hb
        by_cases hvb : v < b
        · exact le_trans (h2 v (by simp [hvb])) (le_of_lt hvb)
        · exact h2 b (by simp [hvb])

theorem minOpt_is_min (l : List (Option Rat)) (m : Rat) (h : Scanner.minOpt l = some m) :
    ∀ c : Rat, some c ∈ l → m ≤ c :=
  (minFold_min l none m h).1

theorem extract_ship_uses_min (item : Item) (m : Rat)
    (h : Scanner.minOpt item.shippingOptions = some m) (hm : m ≠ 0) :
    (Scanner.extract_price_and_ship item).2 = m := by
  simp only [Scanner.extract_price_and_ship]
  rw [h]
  simp [hm]

/-- C8 (amended): only the auction scanner extracts the cheapest numeric shipping
option (and even there a cheapest option of exactly 0 falls back to the top
level shippingCost field); the main scanner and the browse helper use the first
option listed, not the cheapest. -/
theorem c8_cheapest_shipping :
    (∀ (item : Item) (m : Rat), Scanner.minOpt item.shippingOptions = some m → m ≠ 0 →
       (Scanner.extract_price_and_ship item).2 = m
         ∧ ∀ c : Rat, some c ∈ item.shippingOptions → m ≤ c)
  ∧ (∀ (item : Item) (c : Rat) (rest : List (Option Rat)),
       item.shippingOptions = some c :: rest → c ≠ 0 → MainApp.extract_shipping item = c)
  ∧ (∀ (item : Item) (c : Rat) (rest : List (Option Rat)),
       item.shippingOptions = some c :: rest →
       EbayBrowse.item_total_cost item = item.price.getD 0 + c) := by
  refine ⟨?_, ?_, ?_⟩
  · intro item m h hm
    exact ⟨extract_ship_uses_min item m h hm, minOpt_is_min _ m h⟩
  · intro item c rest h hc
    simp only [MainApp.extract_shipping, h]
    simp [hc]
  · intro item c rest h
    simp only [EbayBrowse.item_total_cost, EbayBrowse.usd_amount, h]
    simp

/-- C8 witness: the scanner picks the 3 option below a first-listed 7, while the
main extractor and the browse helper pick the first-listed 7, via
c8_cheapest_shipping. -/
theorem c8_cheapest_shipping_witness :
    ((Scanner.extract_price_and_ship c8WitItem).2 = 3
       ∧ ∀ c : Rat, some c ∈ c8WitItem.shippingOptions → 3 ≤ c)
  ∧ MainApp.extract_shipping c8WitItem = 7
  ∧ EbayBrowse.item_total_cost c8WitItem = c8WitItem.price.getD 0 + 7 := by
  refine ⟨c8_cheapest_shipping.1 c8WitItem 3 ?_ (by norm_num),
    c8_cheapest_shipping.2.1 c8WitItem 7 [some 3] rfl (by norm_num),
    c8_cheapest_shipping.2.2 c8WitItem 7 [some 3] rfl⟩
  norm_num [Scanner.minOpt, Scanner.minFold, c8WitItem]

/-- C8 counterexample: with options costing 5 then 2, the main extractor and the
browse total-cost helper take the first option 5, not the cheapest 2, refuting
the claim for those cited extractors. -/
theorem c8_counterexample :
    MainApp.extract_shipping c8Item = 5
  ∧ Scanner.extract_price_and_ship c8Item = (100, 2)
  ∧ EbayBrowse.item_total_cost c8Item = 100 + 5
  ∧ (5 : Rat) ≠ 2 := by
  refine ⟨?_, ?_, ?_, by norm_num⟩
  · norm_num [MainApp.extract_shipping, c8Item]
  · norm_num [Scanner.extract_price_and_ship, Scanner.minOpt, Scanner.minFold, c8Item]
  · norm_num [EbayBrowse.item_total_cost, EbayBrowse.usd_amount, c8Item]

-- ===== normalize_row inversion (shared by C1, C2, C4, C10) =====

theorem normalize_row_some_inv (item : Item) (now : Rat) (comps : Option (List Item))
    (r : Scanner.Row) (h : Scanner.normalize_row item now comps = some r) :
    ∃ end_dt buy ship mv cm method pro roi,
      Scanner.extract_price_and_ship item = (buy, ship)
      ∧ Scanner.extract_end_time item = some end_dt
      ∧ Scanner.estimate_market_value (item.title.getD "") buy ship comps = (mv, cm, method)
      ∧ Scanner.compute_profit_and_roi mv buy ship = (pro, roi)
      ∧ 0 < Scanner.hours_until end_dt now
      ∧ Scanner.hours_until end_dt now ≤ Scanner.ENDING_SOON_HOURS
      ∧ 0 < mv
      ∧ Scanner.MIN_EST_PROFIT_USD ≤ pro
      ∧ Scanner.MIN_ROI ≤ roi
      ∧ r.end_time = end_dt
      ∧ r.est_profit = money_round pro
      ∧ r.roi = money_round roi
      ∧ r.est_method = method := by
  simp only [Scanner.normalize_row] at h
  split at h
  next htitle => exact absurd h (by simp)
  next htitle =>
    split at h
    next hsports => exact absurd h (by simp)
    next hsports =>
      split at h
      next hbuy => exact absurd h (by simp)
      next hbuy =>
        split at h
        next hrange => exact absurd h (by simp)
        next hrange =>
          split at h
          next heq => exact absurd h (by simp)
          next end_dt heq =>
            split at h
            next hwin => exact absurd h (by simp)
            next hwin =>
              split at h
              next hmv => exact absurd h (by simp)
              next hmv =>
                split at h
                next hpro => exact absurd h (by simp)
                next hpro =>
                  split at h
                  next hroi => exact absurd h (by simp)
                  next hroi =>
                    rw [Option.some.injEq] at h
                    subst h
                    push_neg at hwin
                    refine ⟨end_dt, (Scanner.extract_price_and_ship item).1,
                      (Scanner.extract_price_and_ship item).2,
                      (Scanner.estimate_market_value (item.title.getD "")
                        (Scanner.extract_price_and_ship item).1
                        (Scanner.extract_price_and_ship item).2 comps).1,
                      (Scanner.estimate_market_value (item.title.getD "")
                        (Scanner.extract_price_and_ship item).1
                        (Scanner.extract_price_and_ship item).2 comps).2.1,
                      (Scanner.estimate_market_value (item.title.getD "")
                        (Scanner.extract_price_and_ship item).1
                        (Scanner.extract_price_and_ship item).2 comps).2.2,
                      (Scanner.compute_profit_and_roi
                        (Scanner.estimate_market_value (item.title.getD "")
                          (Scanner.extract_price_and_ship item).1
                          (Scanner.extract_price_and_ship item).2 comps).1
                        (Scanner.extract_price_and_ship item).1
                        (Scanner.extract_price_and_ship item).2).1,
                      (Scanner.compute_profit_and_roi
                        (Scanner.estimate_market_value (item.title.getD "")
                          (Scanner.extract_price_and_ship item).1
                          (Scanner.extract_price_and_ship item).2 comps).1
                        (Scanner.extract_price_and_ship item).1
                        (Scanner.extract_price_and_ship item).2).2,
                      rfl, heq, rfl, rfl, hwin.1, hwin.2, not_le.mp hmv,
                      not_lt.mp hpro, not_lt.mp hroi, rfl, rfl, rfl, rfl⟩

-- ===== C10: the ending-soon window of normalize_row =====

/-- C10: every row returned by normalize_row has an end time strictly in the
future at normalization time and at most ENDING_SOON_HOURS away. -/
theorem c10_ending_soon_window (item : Item) (now : Rat) (comps : Option (List Item))
    (r : Scanner.Row) (h : Scanner.normalize_row item now comps = some r) :
    0 < Scanner.hours_until r.end_time now
      ∧ Scanner.hours_until r.end_time now ≤ Scanner.ENDING_SOON_HOURS := by
  obtain ⟨end_dt, buy, ship, mv, cm, method, pro, roi, hps, hend, hest, hpr,
    h1, h2, h3, h4, h5, hrend, hrp, hrr, hrm⟩ := normalize_row_some_inv item now comps r h
  rw [hrend]
  exact ⟨h1, h2⟩

/-- C10 witness: a concrete auction one hour from ending passes normalize_row
and its window facts follow via c10_ending_soon_window. -/
theorem c10_ending_soon_window_witness :
    ∃ r, Scanner.normalize_row c10Item 0 (some [compItem 120]) = some r
      ∧ 0 < Scanner.hours_until r.end_time 0
      ∧ Scanner.hours_until r.end_time 0 ≤ Scanner.ENDING_SOON_HOURS := by
  rcases hr : Scanner.normalize_row c10Item 0 (some [compItem 120]) with _ | r
  · refine absurd hr ?_
    norm_num [Scanner.normalize_row, c10Item, compItem, Scanner.extract_price_and_ship,
      Scanner.minOpt, Scanner.minFold, Scanner.extract_end_time, Scanner.hours_until,
      Scanner.ENDING_SOON_HOURS, Scanner.MIN_BUY_PRICE_USD, Scanner.MAX_PRICE_USD,
      Scanner.title_has_sports_focus, Scanner.SPORTS_KEYWORDS, Scanner.estimate_market_value,
      Scanner.compPrices, sortAsc, insertAsc, money_round, Scanner.compute_profit_and_roi,
      Scanner.MIN_EST_PROFIT_USD, Scanner.MIN_ROI, Scanner.EBAY_FEE_RATE,
      Scanner.EBAY_ORDER_FIXED_FEE, Scanner.extract_bid_count] <;> simp
  · exact ⟨r, rfl, c10_ending_soon_window c10Item 0 (some [compItem 120]) r hr⟩

-- ===== C2: comp-search failure handling of the estimator =====

/-- C2 (amended): on a failed comp search the estimator does not return an
insufficient-data sentinel but a fallback rarity-multiplier estimate with method
string fallback; a single usable comp price already takes the sold-comps path
(there is no minimum sample threshold); and a row normalized under a failed comp
search is kept with method fallback, not skipped. -/
theorem c2_failure_gives_fallback :
    (∀ (t : String) (b s : Rat),
       Scanner.estimate_market_value t b s none
         = (money_round ((b + s) * Scanner.compute_fallback_multiplier (Scanner.rarity_signals t)),
            none, "fallback"))
  ∧ (∀ (t : String) (b s : Rat) (it : Item) (p : Rat), it.price = some p → 0 < p →
       Scanner.estimate_market_value t b s (some [it])
         = (money_round (p * 0.92), some (money_round p), "sold_comps"))
  ∧ (∀ (item : Item) (now : Rat) (r : Scanner.Row),
       Scanner.normalize_row item now none = some r → r.est_method = "fallback") := by
  refine ⟨estimate_none_eq, ?_, ?_⟩
  · intro t b s it p hp hpos
    simp [Scanner.estimate_market_value, Scanner.compPrices, hp, not_le.mpr hpos,
      sortAsc, insertAsc]
  · intro item now r h
    obtain ⟨end_dt, buy, ship, mv, cm, method, pro, roi, hps, hend, hest, hpr,
      h1, h2, h3, h4, h5, hrend, hrp, hrr, hrm⟩ := normalize_row_some_inv item now none r h
    rw [hrm]
    rw [estimate_none_eq (item.title.getD "") buy ship] at hest
    injection hest with hx1 hx2
    injection hx2 with hx3 hx4
    exact hx4.symm

/-- C2 witness: one comp price of 7 already yields a sold-comps estimate, and a
concrete row normalized under comp-search failure carries method fallback, via
c2_failure_gives_fallback. -/
theorem c2_failure_gives_fallback_witness :
    Scanner.estimate_market_value "w" 1 0 (some [compItem 7])
      = (money_round (7 * 0.92), some (money_round 7), "sold_comps")
  ∧ (∃ r, Scanner.normalize_row c2Item 0 none = some r ∧ r.est_method = "fallback") := by
  constructor
  · exact c2_failure_gives_fallback.2.1 "w" 1 0 (compItem 7) 7 rfl (by norm_num)
  · rcases hr : Scanner.normalize_row c2Item 0 none with _ | r
    · refine absurd hr ?_
      have hsig : Scanner.rarity_signals "downtown auto rookie card"
          = { auto := 1, patch := 0, numbered := 0, refractor := 0, short_print := 0,
              color := 0, case_hit := 1, rookie := 1, graded := 0, serial := none } := by
        decide
      norm_num [Scanner.normalize_row, c2Item, Scanner.extract_price_and_ship,
        Scanner.minOpt, Scanner.minFold, Scanner.extract_end_time, Scanner.hours_until,
        Scanner.ENDING_SOON_HOURS, Scanner.MIN_BUY_PRICE_USD, Scanner.MAX_PRICE_USD,
        Scanner.title_has_sports_focus, Scanner.SPORTS_KEYWORDS, Scanner.estimate_market_value,
        Scanner.compPrices, money_round, Scanner.compute_profit_and_roi,
        Scanner.MIN_EST_PROFIT_USD, Scanner.MIN_ROI, Scanner.EBAY_FEE_RATE,
        Scanner.EBAY_ORDER_FIXED_FEE, Scanner.extract_bid_count, hsig,
        Scanner.compute_fallback_multiplier, Scanner.FALLBACK_BASE_MULTIPLIER,
        max_def] <;> simp
    · exact ⟨r, rfl, c2_failure_gives_fallback.2.2 c2Item 0 r hr⟩

/-- C2 counterexample: under a failed comp search the estimator returns the
fallback estimate 111, not the claimed sentinel with market value 0, and the
caller keeps the candidate instead of skipping it. -/
theorem c2_counterexample :
    Scanner.estimate_market_value "downtown auto rookie card" 30 0 none = (111, none, "fallback")
  ∧ (Scanner.normalize_row c2Item 0 none).isSome = true := by
  have hsig : Scanner.rarity_signals "downtown auto rookie card"
      = { auto := 1, patch := 0, numbered := 0, refractor := 0, short_print := 0,
          color := 0, case_hit := 1, rookie := 1, graded := 0, serial := none } := by
    decide
  constructor
  · rw [estimate_none_eq]
    norm_num [hsig, Scanner.compute_fallback_multiplier, Scanner.FALLBACK_BASE_MULTIPLIER,
      money_round, max_def]
  · rw [Option.isSome_iff_ne_none]
    norm_num [Scanner.normalize_row, c2Item, Scanner.extract_price_and_ship,
      Scanner.minOpt, Scanner.minFold, Scanner.extract_end_time, Scanner.hours_until,
      Scanner.ENDING_SOON_HOURS, Scanner.MIN_BUY_PRICE_USD, Scanner.MAX_PRICE_USD,
      Scanner.title_has_sports_focus, Scanner.SPORTS_KEYWORDS, Scanner.estimate_market_value,
      Scanner.compPrices, money_round, Scanner.compute_profit_and_roi,
      Scanner.MIN_EST_PROFIT_USD, Scanner.MIN_ROI, Scanner.EBAY_FEE_RATE,
      Scanner.EBAY_ORDER_FIXED_FEE, Scanner.extract_bid_count, hsig,
      Scanner.compute_fallback_multiplier, Scanner.FALLBACK_BASE_MULTIPLIER,
      max_def] <;> simp

-- ===== C4: no lot or bundle heuristic in the normalizer =====

/-- C4 (amended): normalize_row has no lot, bundle or quantity heuristic: a
rejection can only come from an empty title, the optional sports-keyword filter
(vacuous at its empty default), the price bounds, a missing or out-of-window end
time, a nonpositive market value, or the profit and roi floors; moreover the
main scanner deliberately includes lot searches in its own query list. -/
theorem c4_no_lot_heuristic :
    (∀ (item : Item) (now : Rat) (comps : Option (List Item)),
       Scanner.normalize_row item now comps = none →
         item.title.getD "" = ""
         ∨ Scanner.title_has_sports_focus (item.title.getD "") = false
         ∨ (Scanner.extract_price_and_ship item).1 ≤ 0
         ∨ (Scanner.extract_price_and_ship item).1 < Scanner.MIN_BUY_PRICE_USD
         ∨ Scanner.MAX_PRICE_USD < (Scanner.extract_price_and_ship item).1
         ∨ Scanner.extract_end_time item = none
         ∨ (∃ dt, Scanner.extract_end_time item = some dt
              ∧ (Scanner.hours_until dt now ≤ 0
                 ∨ Scanner.ENDING_SOON_HOURS < Scanner.hours_until dt now))
         ∨ (Scanner.estimate_market_value (item.title.getD "")
              (Scanner.extract_price_and_ship item).1
              (Scanner.extract_price_and_ship item).2 comps).1 ≤ 0
         ∨ (Scanner.compute_profit_and_roi
              (Scanner.estimate_market_value (item.title.getD "")
                (Scanner.extract_price_and_ship item).1
                (Scanner.extract_price_and_ship item).2 comps).1
              (Scanner.extract_price_and_ship item).1
              (Scanner.extract_price_and_ship item).2).1 < Scanner.MIN_EST_PROFIT_USD
         ∨ (Scanner.compute_profit_and_roi
              (Scanner.estimate_market_value (item.title.getD "")
                (Scanner.extract_price_and_ship item).1
                (Scanner.extract_price_and_ship item).2 comps).1
              (Scanner.extract_price_and_ship item).1
              (Scanner.extract_price_and_ship item).2).2 < Scanner.MIN_ROI)
  ∧ "sports card lot" ∈ MainApp.cheap_queries := by
  constructor
  · intro item now comps h
    simp only [Scanner.normalize_row] at h
    split at h
    next hc => exact Or.inl hc
    next hc =>
      split at h
      next hc2 => exact Or.inr (Or.inl (by simpa using hc2))
      next hc2 =>
        split at h
        next hc3 => exact Or.inr (Or.inr (Or.inl hc3))
        next hc3 =>
          split at h
          next hc4 =>
            rcases hc4 with h4 | h4
            · exact Or.inr (Or.inr (Or.inr (Or.inl h4)))
            · exact Or.inr (Or.inr (Or.inr (Or.inr (Or.inl h4))))
          next hc4 =>
            split at h
            next heq =>
              exact Or.inr (Or.inr (Or.inr (Or.inr (Or.inr (Or.inl heq)))))
            next dt heq =>
              split at h
              next hc5 =>
                exact Or.inr (Or.inr (Or.inr (Or.inr (Or.inr (Or.inr (Or.inl ⟨dt, heq, hc5⟩))))))
              next hc5 =>
                split at h
                next hc6 =>
                  exact Or.inr (Or.inr (Or.inr (Or.inr (Or.inr (Or.inr (Or.inr (Or.inl hc6)))))))
                next hc6 =>
                  split at h
                  next hc7 =>
                    exact Or.inr (Or.inr (Or.inr (Or.inr (Or.inr (Or.inr (Or.inr (Or.inr (Or.inl hc7))))))))
                  next hc7 =>
                    split at h
                    next hc8 =>
                      exact Or.inr (Or.inr (Or.inr (Or.inr (Or.inr (Or.inr (Or.inr (Or.inr (Or.inr hc8))))))))
                    next hc8 => exact absurd h (by simp)
  · decide

/-- C4 witness: a blank item is rejected for one of the listed non-lot reasons,
and the lot query membership, via c4_no_lot_heuristic. -/
theorem c4_no_lot_heuristic_witness :
    (c4BlankItem.title.getD "" = ""
       ∨ Scanner.title_has_sports_focus (c4BlankItem.title.getD "") = false
       ∨ (Scanner.extract_price_and_ship c4BlankItem).1 ≤ 0
       ∨ (Scanner.extract_price_and_ship c4BlankItem).1 < Scanner.MIN_BUY_PRICE_USD
       ∨ Scanner.MAX_PRICE_USD < (Scanner.extract_price_and_ship c4BlankItem).1
       ∨ Scanner.extract_end_time c4BlankItem = none
       ∨ (∃ dt, Scanner.extract_end_time c4BlankItem = some dt
            ∧ (Scanner.hours_until dt 0 ≤ 0
               ∨ Scanner.ENDING_SOON_HOURS < Scanner.hours_until dt 0))
       ∨ (Scanner.estimate_market_value (c4BlankItem.title.getD "")
            (Scanner.extract_price_and_ship c4BlankItem).1
            (Scanner.extract_price_and_ship c4BlankItem).2 none).1 ≤ 0
       ∨ (Scanner.compute_profit_and_roi
            (Scanner.estimate_market_value (c4BlankItem.title.getD "")
              (Scanner.extract_price_and_ship c4BlankItem).1
              (Scanner.extract_price_and_ship c4BlankItem).2 none).1
            (Scanner.extract_price_and_ship c4BlankItem).1
            (Scanner.extract_price_and_ship c4BlankItem).2).1 < Scanner.MIN_EST_PROFIT_USD
       ∨ (Scanner.compute_profit_and_roi
            (Scanner.estimate_market_value (c4BlankItem.title.getD "")
              (Scanner.extract_price_and_ship c4BlankItem).1
              (Scanner.extract_price_and_ship c4BlankItem).2 none).1
            (Scanner.extract_price_and_ship c4BlankItem).1
            (Scanner.extract_price_and_ship c4BlankItem).2).2 < Scanner.MIN_ROI)
  ∧ "sports card lot" ∈ MainApp.cheap_queries :=
  ⟨c4_no_lot_heuristic.1 c4BlankItem 0 none rfl, c4_no_lot_heuristic.2⟩

/-- C4 counterexample: the listing titled Huge lot of 50 rookie cards is not
rejected by the normalizer: it produces a row, reaches the estimator and would
be stored, refuting the claimed lot heuristic. -/
theorem c4_counterexample :
    c4Item.title = some "Huge lot of 50 rookie cards"
  ∧ (Scanner.normalize_row c4Item 0 (some [compItem 100])).isSome = true := by
  refine ⟨rfl, ?_⟩
  rw [Option.isSome_iff_ne_none]
  norm_num [Scanner.normalize_row, c4Item, compItem, Scanner.extract_price_and_ship,
    Scanner.minOpt, Scanner.minFold, Scanner.extract_end_time, Scanner.hours_until,
    Scanner.ENDING_SOON_HOURS, Scanner.MIN_BUY_PRICE_USD, Scanner.MAX_PRICE_USD,
    Scanner.title_has_sports_focus, Scanner.SPORTS_KEYWORDS, Scanner.estimate_market_value,
    Scanner.compPrices, sortAsc, insertAsc, money_round, Scanner.compute_profit_and_roi,
    Scanner.MIN_EST_PROFIT_USD, Scanner.MIN_ROI, Scanner.EBAY_FEE_RATE,
    Scanner.EBAY_ORDER_FIXED_FEE, Scanner.extract_bid_count] <;> simp

-- ===== C1: the qualification gate =====

/-- C1 (amended): in the main scanner, qualification is exactly the comparison
of est_profit against a profit floor of 25, lowered to 10 for cheap candidates;
but the cheap sub-policy depends on buy_price and the tax-adjusted buy-in, not
on total cost alone, and every persisted deal satisfies the gate.  In the
auction scanner, the profit floor is not the only gate: a persisted row also
satisfies the roi floor. -/
theorem c1_qualification_gate :
    (∀ p bp bs : Rat,
       (MainApp.qualifies p bp bs).1 = true ↔ MainApp.profit_threshold bp bs ≤ p)
  ∧ (∀ (c : Bool) (item : Item) (d : MainApp.MainDeal),
       MainApp.process_item c item = some d →
       (MainApp.qualifies d.est_profit d.buy_price d.buy_shipping).1 = true)
  ∧ (∀ (item : Item) (now : Rat) (comps : Option (List Item)) (r : Scanner.Row),
       Scanner.normalize_row item now comps = some r →
       Scanner.MIN_EST_PROFIT_USD ≤ r.est_profit ∧ Scanner.MIN_ROI ≤ r.roi) := by
  refine ⟨?_, ?_, ?_⟩
  · intro p bp bs
    simp only [MainApp.qualifies, MainApp.profit_threshold, MainApp.MIN_PROFIT_MAIN,
      MainApp.MIN_PROFIT_CHEAP]
    split_ifs with h1 h2 h3 h4 <;> simp_all <;> linarith
  · intro c item d h
    simp only [MainApp.process_item] at h
    split at h
    next iid title url =>
      split at h
      next => exact absurd h (by simp)
      next =>
        split at h
        next => exact absurd h (by simp)
        next =>
          split at h
          next => exact absurd h (by simp)
          next hkeep =>
            rw [Option.some.injEq] at h
            subst h
            simpa using not_not.mp hkeep
    next => exact absurd h (by simp)
  · intro item now comps r h
    obtain ⟨end_dt, buy, ship, mv, cm, method, pro, roi, hps, hend, hest, hpr,
      h1, h2, h3, h4, h5, hrend, hrp, hrr, hrm⟩ := normalize_row_some_inv item now comps r h
    constructor
    · rw [hrp]
      have hm : money_round Scanner.MIN_EST_PROFIT_USD = Scanner.MIN_EST_PROFIT_USD := by
        norm_num [money_round, Scanner.MIN_EST_PROFIT_USD]
      calc Scanner.MIN_EST_PROFIT_USD = money_round Scanner.MIN_EST_PROFIT_USD := hm.symm
        _ ≤ money_round pro := money_round_mono h4
    · rw [hrr]
      have hm : money_round Scanner.MIN_ROI = Scanner.MIN_ROI := by
        norm_num [money_round, Scanner.MIN_ROI]
      calc Scanner.MIN_ROI = money_round Scanner.MIN_ROI := hm.symm
        _ ≤ money_round roi := money_round_mono h5

/-- C1 witness: the gate as a threshold comparison at a concrete input, a
persisted main deal satisfying the gate, and a normalized scanner row meeting
both floors, via c1_qualification_gate. -/
theorem c1_qualification_gate_witness :
    ((MainApp.qualifies 30 100 0).1 = true ↔ MainApp.profit_threshold 100 0 ≤ 30)
  ∧ (∃ d, MainApp.process_item false c1WitItem = some d
       ∧ (MainApp.qualifies d.est_profit d.buy_price d.buy_shipping).1 = true)
  ∧ (∃ r, Scanner.normalize_row c1ScanItem 0 (some [compItem 100]) = some r
       ∧ Scanner.MIN_EST_PROFIT_USD ≤ r.est_profit ∧ Scanner.MIN_ROI ≤ r.roi) := by
  refine ⟨c1_qualification_gate.1 30 100 0, ?_, ?_⟩
  · rcases hd : MainApp.process_item false c1WitItem with _ | d
    · refine absurd hd ?_
      norm_num [MainApp.process_item, c1WitItem, MainApp.extract_price,
        MainApp.extract_shipping, MainApp.expected_profit, MainApp.buy_in,
        MainApp.qualifies, MainApp.is_cheap_candidate, MainApp.MIN_PROFIT_MAIN,
        MainApp.MIN_PROFIT_CHEAP, MainApp.CHEAP_MAX_BUY_PRICE, MainApp.CHEAP_MAX_BUY_IN,
        MainApp.SELL_FEE_RATE, MainApp.OUTBOUND_SHIP_SUPPLIES, MainApp.BUY_TAX_RATE] <;> simp
    · exact ⟨d, rfl, c1_qualification_gate.2.1 false c1WitItem d hd⟩
  · rcases hr : Scanner.normalize_row c1ScanItem 0 (some [compItem 100]) with _ | r
    · refine absurd hr ?_
      norm_num [Scanner.normalize_row, c1ScanItem, compItem, Scanner.extract_price_and_ship,
        Scanner.minOpt, Scanner.minFold, Scanner.extract_end_time, Scanner.hours_until,
        Scanner.ENDING_SOON_HOURS, Scanner.MIN_BUY_PRICE_USD, Scanner.MAX_PRICE_USD,
        Scanner.title_has_sports_focus, Scanner.SPORTS_KEYWORDS, Scanner.estimate_market_value,
        Scanner.compPrices, sortAsc, insertAsc, money_round, Scanner.compute_profit_and_roi,
        Scanner.MIN_EST_PROFIT_USD, Scanner.MIN_ROI, Scanner.EBAY_FEE_RATE,
        Scanner.EBAY_ORDER_FIXED_FEE, Scanner.extract_bid_count] <;> simp
    · exact ⟨r, rfl, c1_qualification_gate.2.2 c1ScanItem 0 (some [compItem 100]) r hr⟩

/-- C1 counterexample: two candidates with equal estimated profit 15 and equal
total cost 70 are decided differently by the gate (the 60 plus 10 split
qualifies under the cheap rule, the 70 plus 0 split does not), so the threshold
is not a function of total cost. -/
theorem c1_counterexample :
    (MainApp.qualifies 15 60 10).1 = true
  ∧ (MainApp.qualifies 15 70 0).1 = false
  ∧ (60 : Rat) + 10 = 70 + 0 := by
  refine ⟨?_, ?_, by norm_num⟩ <;>
    norm_num [MainApp.qualifies, MainApp.is_cheap_candidate, MainApp.buy_in,
      MainApp.MIN_PROFIT_MAIN, MainApp.MIN_PROFIT_CHEAP, MainApp.CHEAP_MAX_BUY_PRICE,
      MainApp.CHEAP_MAX_BUY_IN, MainApp.BUY_TAX_RATE]

-- ===== C3: the comp estimate versus the spec trimmed median =====

theorem length_insertAsc (x : Rat) (l : List Rat) :
    (insertAsc x l).length = l.length + 1 := by
  induction l with
  | nil => rfl
  | cons y ys ih =>
    simp only [insertAsc]
    split
    · simp
    · simp [ih]

theorem length_sortAsc (l : List Rat) : (sortAsc l).length = l.length := by
  induction l with
  | nil => rfl
  | cons x xs ih =>
    simp only [sortAsc, List.foldr_cons] at *
    rw [length_insertAsc, ih]
    simp

-- Trimming k entries from each tail of a sorted sample never moves the upper
-- nearest-rank median: it stays the entry at index length / 2 of the full
-- sorted sample.
theorem spec_trim_median_eq_mid (k : Nat) (l : List Rat) (hk : 2 * k < l.length) :
    Scanner.specTrimmedMedian k l = (sortAsc l)[l.length / 2]? := by
  simp only [Scanner.specTrimmedMedian]
  have hlen : (sortAsc l).length = l.length := length_sortAsc l
  have hcorelen :
      (((sortAsc l).drop k).take ((sortAsc l).length - 2 * k)).length = l.length - 2 * k := by
    simp [List.length_take, List.length_drop, hlen]
    omega
  rw [hcorelen]
  rw [List.getElem?_take_of_lt (by omega)]
  rw [List.getElem?_drop]
  congr 1
  omega

/-- C3 (amended): the comp estimate is not the trimmed median itself: the code
sorts the sample and takes its upper nearest-rank median with no explicit
trimming — extensionally the same value as the median of any symmetric trim,
since trimming k entries from each tail never moves the middle — and then
applies a 0.92 haircut and money rounding.  On the sample
[10,10,10,10,10,1000] the estimate is 9.2: close to 10 and not skewed toward
1000, but 0.92 times the trimmed median rather than the trimmed median. -/
theorem c3_trimmed_median :
    (∀ (k : Nat) (l : List Rat), 2 * k < l.length →
       Scanner.specTrimmedMedian k l = some ((sortAsc l).getD (l.length / 2) 0))
  ∧ (∀ (t : String) (b s : Rat) (comps : Option (List Item)),
       Scanner.compPrices comps ≠ [] →
       Scanner.estimate_market_value t b s comps
         = (money_round ((sortAsc (Scanner.compPrices comps)).getD
              ((Scanner.compPrices comps).length / 2) 0 * 0.92),
            some (money_round ((sortAsc (Scanner.compPrices comps)).getD
              ((Scanner.compPrices comps).length / 2) 0)),
            "sold_comps")) := by
  constructor
  · intro k l hk
    rw [spec_trim_median_eq_mid k l hk]
    have h2 : l.length / 2 < (sortAsc l).length := by
      rw [length_sortAsc]
      omega
    simp [List.getD_eq_getElem?_getD, List.getElem?_eq_getElem h2]
  · intro t b s comps hne
    cases hl : Scanner.compPrices comps with
    | nil => exact absurd hl hne
    | cons x xs => simp [Scanner.estimate_market_value, hl]

/-- C3 witness: the trim-invariant median and the estimator shape at the sample
[1,2,3,4,5] with trim count 1, via c3_trimmed_median. -/
theorem c3_trimmed_median_witness :
    Scanner.specTrimmedMedian 1 c3WitSample
      = some ((sortAsc c3WitSample).getD (c3WitSample.length / 2) 0)
  ∧ Scanner.estimate_market_value "w3" 1 1 (some (c3WitSample.map compItem))
      = (money_round ((sortAsc (Scanner.compPrices (some (c3WitSample.map compItem)))).getD
           ((Scanner.compPrices (some (c3WitSample.map compItem))).length / 2) 0 * 0.92),
         some (money_round ((sortAsc (Scanner.compPrices (some (c3WitSample.map compItem)))).getD
           ((Scanner.compPrices (some (c3WitSample.map compItem))).length / 2) 0)),
         "sold_comps") := by
  constructor
  · exact c3_trimmed_median.1 1 c3WitSample (by norm_num [c3WitSample])
  · refine c3_trimmed_median.2 "w3" 1 1 (some (c3WitSample.map compItem)) ?_
    norm_num [Scanner.compPrices, c3WitSample, compItem]
    simp

/-- C3 counterexample: on the sample [10,10,10,10,10,1000] the code yields the
estimate 9.2 while the spec trimmed median is 10, so the estimate is not
computed as the median of the trimmed core (though it is close to 10). -/
theorem c3_counterexample :
    Scanner.estimate_market_value "x" 0 0 (some (c3Sample.map compItem))
      = (46/5, some 10, "sold_comps")
  ∧ Scanner.specTrimmedMedian 1 c3Sample = some 10
  ∧ (46/5 : Rat) ≠ 10 := by
  refine ⟨?_, ?_, by norm_num⟩
  · norm_num [Scanner.estimate_market_value, Scanner.compPrices, c3Sample, compItem,
      sortAsc, insertAsc, money_round]
  · norm_num [Scanner.specTrimmedMedian, c3Sample, sortAsc, insertAsc]
